import Mathlib

/-!
Verification of the dual marching cubes mesher (`src/include/dmc/dualmc.hpp`).

The C++ `Mesher<T>` class is shallowly embedded below.  Scalar samples and
the iso threshold are modelled by rationals (the template parameter `T`
only needs ordering and field operations for interpolation); the volume is
a total function from linearized sample addresses to samples; the
`std::unordered_map` vertex cache is modelled by an association list with
first-match lookup and front insertion; vertex and index buffers are Lean
lists.  Every definition mirrors the corresponding C++ member function.
-/

namespace DualMC

/-- Edge bit codes of the `DMCEdgeCode` enum. -/
def EDGE0 : Nat := 1

def EDGE1 : Nat := 2

def EDGE2 : Nat := 4

def EDGE3 : Nat := 8

def EDGE4 : Nat := 16

def EDGE5 : Nat := 32

def EDGE6 : Nat := 64

def EDGE7 : Nat := 128

def EDGE8 : Nat := 256

def EDGE9 : Nat := 512

def EDGE10 : Nat := 1024

def EDGE11 : Nat := 2048

/-- Mesh topology selector, mirroring `enum class Topology`. -/
inductive Topology : Type
  | Triangles : Topology
  | Quads : Topology
deriving DecidableEq, Repr

/-- A 3-component integer vector, mirroring `int3 = std::array<int32_t,3>`. -/
structure Int3 where
  x : ℤ
  y : ℤ
  z : ℤ
deriving DecidableEq, Repr

/-- Component access `c[i]` of an `int3`. -/
def Int3.get (c : Int3) : Nat → ℤ
  | 0 => c.x
  | 1 => c.y
  | _ => c.z

/-- Component update `c[i] = v` of an `int3`. -/
def Int3.set (c : Int3) : Nat → ℤ → Int3
  | 0, v => ⟨v, c.y, c.z⟩
  | 1, v => ⟨c.x, v, c.z⟩
  | _, v => ⟨c.x, c.y, v⟩

/-- The sample buffer, addressed by linearized offsets as in `std::span`. -/
abbrev Volume : Type := ℤ → ℚ

/-- Linearized sample address, mirroring `Mesher::gA(x, y, z)`. -/
def gA (dims : Int3) (x y z : ℤ) : ℤ := x + dims.x * (y + dims.y * z)

/-- Linearized cell cube index, mirroring `Mesher::gA(cell)`. -/
def gA3 (dims : Int3) (c : Int3) : ℤ := gA dims c.x c.y c.z

/-- 8-bit in/out corner mask of a cell, mirroring `Mesher::GetCellCode`. -/
def GetCellCode (vol : Volume) (dims : Int3) (cell : Int3) (iso : ℚ) : Nat :=
  (if iso ≤ vol (gA dims cell.x cell.y cell.z) then 1 else 0) |||
  (if iso ≤ vol (gA dims (cell.x + 1) cell.y cell.z) then 2 else 0) |||
  (if iso ≤ vol (gA dims cell.x (cell.y + 1) cell.z) then 4 else 0) |||
  (if iso ≤ vol (gA dims (cell.x + 1) (cell.y + 1) cell.z) then 8 else 0) |||
  (if iso ≤ vol (gA dims cell.x cell.y (cell.z + 1)) then 16 else 0) |||
  (if iso ≤ vol (gA dims (cell.x + 1) cell.y (cell.z + 1)) then 32 else 0) |||
  (if iso ≤ vol (gA dims cell.x (cell.y + 1) (cell.z + 1)) then 64 else 0) |||
  (if iso ≤ vol (gA dims (cell.x + 1) (cell.y + 1) (cell.z + 1)) then 128 else 0)

/-- Classification of a grid edge, mirroring `Mesher::GetStatus`: the pair
is `(entering, exiting)` for the samples at `(x,y,z)` and at the offset. -/
def GetStatus (vol : Volume) (dims : Int3) (iso : ℚ)
    (x y z xOffset yOffset zOffset : ℤ) : Bool × Bool :=
  (decide (iso ≤ vol (gA dims x y z)) &&
     decide (vol (gA dims (x + xOffset) (y + yOffset) (z + zOffset)) < iso),
   decide (vol (gA dims x y z) < iso) &&
     decide (iso ≤ vol (gA dims (x + xOffset) (y + yOffset) (z + zOffset))))


/-- The 256-entry dual marching cubes table `dualPointsList`: for each cube
configuration, up to four 12-bit edge masks of the classic MC faces. -/
def dualPointsList : List (List Nat) := [
  [0, 0, 0, 0],
  [265, 0, 0, 0],
  [515, 0, 0, 0],
  [778, 0, 0, 0],
  [400, 0, 0, 0],
  [153, 0, 0, 0],
  [515, 400, 0, 0],
  [666, 0, 0, 0],
  [560, 0, 0, 0],
  [265, 560, 0, 0],
  [51, 0, 0, 0],
  [314, 0, 0, 0],
  [928, 0, 0, 0],
  [681, 0, 0, 0],
  [419, 0, 0, 0],
  [170, 0, 0, 0],
  [2060, 0, 0, 0],
  [2309, 0, 0, 0],
  [515, 2060, 0, 0],
  [2822, 0, 0, 0],
  [400, 2060, 0, 0],
  [2197, 0, 0, 0],
  [515, 400, 2060, 0],
  [2710, 0, 0, 0],
  [560, 2060, 0, 0],
  [2309, 560, 0, 0],
  [51, 2060, 0, 0],
  [2358, 0, 0, 0],
  [928, 2060, 0, 0],
  [2725, 0, 0, 0],
  [419, 2060, 0, 0],
  [2214, 0, 0, 0],
  [1030, 0, 0, 0],
  [265, 1030, 0, 0],
  [1541, 0, 0, 0],
  [1804, 0, 0, 0],
  [400, 1030, 0, 0],
  [153, 1030, 0, 0],
  [1541, 400, 0, 0],
  [1692, 0, 0, 0],
  [560, 1030, 0, 0],
  [265, 560, 1030, 0],
  [1077, 0, 0, 0],
  [1340, 0, 0, 0],
  [928, 1030, 0, 0],
  [681, 1030, 0, 0],
  [1445, 0, 0, 0],
  [1196, 0, 0, 0],
  [3082, 0, 0, 0],
  [3331, 0, 0, 0],
  [3593, 0, 0, 0],
  [3840, 0, 0, 0],
  [400, 3082, 0, 0],
  [3219, 0, 0, 0],
  [3593, 400, 0, 0],
  [3728, 0, 0, 0],
  [560, 3082, 0, 0],
  [3331, 560, 0, 0],
  [3129, 0, 0, 0],
  [3376, 0, 0, 0],
  [928, 3082, 0, 0],
  [3747, 0, 0, 0],
  [3497, 0, 0, 0],
  [3232, 0, 0, 0],
  [2240, 0, 0, 0],
  [265, 2240, 0, 0],
  [515, 2240, 0, 0],
  [778, 2240, 0, 0],
  [2384, 0, 0, 0],
  [2137, 0, 0, 0],
  [515, 2384, 0, 0],
  [2650, 0, 0, 0],
  [560, 2240, 0, 0],
  [265, 560, 2240, 0],
  [51, 2240, 0, 0],
  [314, 2240, 0, 0],
  [2912, 0, 0, 0],
  [2665, 0, 0, 0],
  [2403, 0, 0, 0],
  [2154, 0, 0, 0],
  [204, 0, 0, 0],
  [453, 0, 0, 0],
  [515, 204, 0, 0],
  [966, 0, 0, 0],
  [348, 0, 0, 0],
  [85, 0, 0, 0],
  [515, 348, 0, 0],
  [598, 0, 0, 0],
  [560, 204, 0, 0],
  [453, 560, 0, 0],
  [51, 204, 0, 0],
  [502, 0, 0, 0],
  [876, 0, 0, 0],
  [613, 0, 0, 0],
  [367, 0, 0, 0],
  [102, 0, 0, 0],
  [1030, 2240, 0, 0],
  [265, 1030, 2240, 0],
  [1541, 2240, 0, 0],
  [1804, 2240, 0, 0],
  [2384, 1030, 0, 0],
  [2137, 1030, 0, 0],
  [1541, 2384, 0, 0],
  [3676, 0, 0, 0],
  [560, 1030, 2240, 0],
  [265, 560, 1030, 2240],
  [1077, 2240, 0, 0],
  [1340, 2240, 0, 0],
  [2912, 1030, 0, 0],
  [2665, 1030, 0, 0],
  [3429, 0, 0, 0],
  [3180, 0, 0, 0],
  [1226, 0, 0, 0],
  [1475, 0, 0, 0],
  [1737, 0, 0, 0],
  [1984, 0, 0, 0],
  [1370, 0, 0, 0],
  [1107, 0, 0, 0],
  [1881, 0, 0, 0],
  [1616, 0, 0, 0],
  [560, 1226, 0, 0],
  [1475, 560, 0, 0],
  [1273, 0, 0, 0],
  [1520, 0, 0, 0],
  [1898, 0, 0, 0],
  [1635, 0, 0, 0],
  [265, 1120, 0, 0],
  [1120, 0, 0, 0],
  [1120, 0, 0, 0],
  [265, 1120, 0, 0],
  [515, 1120, 0, 0],
  [778, 1120, 0, 0],
  [400, 1120, 0, 0],
  [153, 1120, 0, 0],
  [515, 400, 1120, 0],
  [666, 1120, 0, 0],
  [1616, 0, 0, 0],
  [265, 1616, 0, 0],
  [1107, 0, 0, 0],
  [1370, 0, 0, 0],
  [1984, 0, 0, 0],
  [1737, 0, 0, 0],
  [1475, 0, 0, 0],
  [1226, 0, 0, 0],
  [2060, 1120, 0, 0],
  [2309, 1120, 0, 0],
  [515, 2060, 1120, 0],
  [2822, 1120, 0, 0],
  [400, 2060, 1120, 0],
  [2197, 1120, 0, 0],
  [515, 400, 2060, 1120],
  [2710, 1120, 0, 0],
  [1616, 2060, 0, 0],
  [2309, 1616, 0, 0],
  [1107, 2060, 0, 0],
  [3414, 0, 0, 0],
  [1984, 2060, 0, 0],
  [3781, 0, 0, 0],
  [1475, 2060, 0, 0],
  [3270, 0, 0, 0],
  [102, 0, 0, 0],
  [265, 102, 0, 0],
  [613, 0, 0, 0],
  [876, 0, 0, 0],
  [400, 102, 0, 0],
  [153, 102, 0, 0],
  [613, 400, 0, 0],
  [764, 0, 0, 0],
  [598, 0, 0, 0],
  [265, 598, 0, 0],
  [85, 0, 0, 0],
  [348, 0, 0, 0],
  [966, 0, 0, 0],
  [719, 0, 0, 0],
  [453, 0, 0, 0],
  [204, 0, 0, 0],
  [2154, 0, 0, 0],
  [2403, 0, 0, 0],
  [2665, 0, 0, 0],
  [2912, 0, 0, 0],
  [400, 2154, 0, 0],
  [2291, 0, 0, 0],
  [2665, 400, 0, 0],
  [2800, 0, 0, 0],
  [2650, 0, 0, 0],
  [2899, 0, 0, 0],
  [2137, 0, 0, 0],
  [2384, 0, 0, 0],
  [3018, 0, 0, 0],
  [515, 2240, 0, 0],
  [2505, 0, 0, 0],
  [2240, 0, 0, 0],
  [3232, 0, 0, 0],
  [265, 3232, 0, 0],
  [515, 3232, 0, 0],
  [778, 3232, 0, 0],
  [3376, 0, 0, 0],
  [3129, 0, 0, 0],
  [515, 3376, 0, 0],
  [3642, 0, 0, 0],
  [3728, 0, 0, 0],
  [265, 3728, 0, 0],
  [3219, 0, 0, 0],
  [3482, 0, 0, 0],
  [3840, 0, 0, 0],
  [3593, 0, 0, 0],
  [3331, 0, 0, 0],
  [3082, 0, 0, 0],
  [1196, 0, 0, 0],
  [1445, 0, 0, 0],
  [515, 1196, 0, 0],
  [1958, 0, 0, 0],
  [1340, 0, 0, 0],
  [1077, 0, 0, 0],
  [515, 1340, 0, 0],
  [1590, 0, 0, 0],
  [1692, 0, 0, 0],
  [1941, 0, 0, 0],
  [1183, 0, 0, 0],
  [400, 1030, 0, 0],
  [1804, 0, 0, 0],
  [1541, 0, 0, 0],
  [1295, 0, 0, 0],
  [1030, 0, 0, 0],
  [2214, 0, 0, 0],
  [265, 2214, 0, 0],
  [2725, 0, 0, 0],
  [2988, 0, 0, 0],
  [2358, 0, 0, 0],
  [2111, 0, 0, 0],
  [2869, 0, 0, 0],
  [560, 2060, 0, 0],
  [2710, 0, 0, 0],
  [265, 2710, 0, 0],
  [2197, 0, 0, 0],
  [2460, 0, 0, 0],
  [2822, 0, 0, 0],
  [2575, 0, 0, 0],
  [2309, 0, 0, 0],
  [2060, 0, 0, 0],
  [170, 0, 0, 0],
  [419, 0, 0, 0],
  [681, 0, 0, 0],
  [928, 0, 0, 0],
  [314, 0, 0, 0],
  [51, 0, 0, 0],
  [825, 0, 0, 0],
  [560, 0, 0, 0],
  [666, 0, 0, 0],
  [915, 0, 0, 0],
  [153, 0, 0, 0],
  [400, 0, 0, 0],
  [778, 0, 0, 0],
  [515, 0, 0, 0],
  [265, 0, 0, 0],
  [0, 0, 0, 0]
]

/-- The 256-entry ambiguous-configuration table `problematicConfigs`:
255 means not ambiguous, values 0..5 encode sign (bit 0) and axis (bits 1-2). -/
def problematicConfigs : List Nat := [
  255, 255, 255, 255, 255, 255, 255, 255, 255, 255, 255, 255, 255, 255, 255, 255,
  255, 255, 255, 255, 255, 255, 255, 255, 255, 255, 255, 255, 255, 255, 255, 255,
  255, 255, 255, 255, 255, 255, 255, 255, 255, 255, 255, 255, 255, 255, 255, 255,
  255, 255, 255, 255, 255, 255, 255, 255, 255, 255, 255, 255, 255, 1, 0, 255,
  255, 255, 255, 255, 255, 255, 255, 255, 255, 255, 255, 255, 255, 255, 255, 255,
  255, 255, 255, 255, 255, 255, 255, 255, 255, 255, 255, 3, 255, 255, 2, 255,
  255, 255, 255, 255, 255, 255, 255, 5, 255, 255, 255, 255, 255, 255, 5, 5,
  255, 255, 255, 255, 255, 255, 4, 255, 255, 255, 3, 3, 1, 1, 255, 255,
  255, 255, 255, 255, 255, 255, 255, 255, 255, 255, 255, 255, 255, 255, 255, 255,
  255, 255, 255, 255, 255, 255, 255, 255, 255, 255, 255, 5, 255, 5, 255, 5,
  255, 255, 255, 255, 255, 255, 255, 3, 255, 255, 255, 255, 255, 2, 255, 255,
  255, 255, 255, 255, 255, 3, 255, 3, 255, 4, 255, 255, 0, 255, 0, 255,
  255, 255, 255, 255, 255, 255, 255, 1, 255, 255, 255, 0, 255, 255, 255, 255,
  255, 255, 255, 1, 255, 255, 255, 1, 255, 4, 2, 255, 255, 255, 2, 255,
  255, 255, 255, 0, 255, 2, 4, 255, 255, 255, 255, 0, 255, 2, 255, 255,
  255, 255, 255, 255, 255, 255, 4, 255, 255, 4, 255, 255, 255, 255, 255, 255
]

/-- The cube code used for the dual-points lookup, mirroring the first part
of `Mesher::GetDualPointCode`: the raw classifier code, with the manifold
correction (bitwise complement on ambiguous face-adjacent pairs) applied
when `generateManifold` is set. -/
def GetDualPointCodeCube (vol : Volume) (dims : Int3) (iso : ℚ)
    (generateManifold : Bool) (cell : Int3) : Nat :=
  let cubeCode := GetCellCode vol dims cell iso
  if generateManifold then
    let direction := problematicConfigs.getD cubeCode 255
    if direction ≠ 255 then
      let component := direction >>> 1
      let delta : ℤ := if direction &&& 1 = 1 then 1 else -1
      let neighborCoords := cell.set component (cell.get component + delta)
      if 0 ≤ neighborCoords.get component ∧
          neighborCoords.get component < dims.get component - 1 then
        let neighborCubeCode := GetCellCode vol dims neighborCoords iso
        if problematicConfigs.getD neighborCubeCode 255 ≠ 255 then
          cubeCode ^^^ 0xff
        else cubeCode
      else cubeCode
    else cubeCode
  else cubeCode

/-- 12-bit dual point code of a cell for a requested cube edge, mirroring
`Mesher::GetDualPointCode`: the first of the up to four masks of the
dual-points table row that contains the edge bit, `0` if none does. -/
def GetDualPointCode (vol : Volume) (dims : Int3) (iso : ℚ)
    (generateManifold : Bool) (cell : Int3) (edge : Nat) : Nat :=
  let cubeCode := GetDualPointCodeCube vol dims iso generateManifold cell
  ((dualPointsList.getD cubeCode []).find? (fun m => m &&& edge != 0)).getD 0

/-- Accumulator for `Mesher::CalculateDualPoint`: partial sums of the local
point and the number of flagged edges seen so far. -/
structure DP where
  px : ℚ
  py : ℚ
  pz : ℚ
  points : Nat
deriving DecidableEq, Repr

/-- Dual vertex position, mirroring `Mesher::CalculateDualPoint`: sum the
interpolated crossing points of the edges flagged in the point code, divide
by their number, and offset by the cell origin. -/
def CalculateDualPoint (vol : Volume) (dims : Int3) (cell : Int3) (iso : ℚ)
    (pointCode : Nat) : ℚ × ℚ × ℚ :=
  let s : ℤ → ℤ → ℤ → ℚ := fun dx dy dz =>
    vol (gA dims (cell.x + dx) (cell.y + dy) (cell.z + dz))
  let d0 : DP := ⟨0, 0, 0, 0⟩
  let d1 := if pointCode &&& EDGE0 ≠ 0 then
    { d0 with px := d0.px + (iso - s 0 0 0) / (s 1 0 0 - s 0 0 0),
              points := d0.points + 1 } else d0
  let d2 := if pointCode &&& EDGE1 ≠ 0 then
    { d1 with px := d1.px + 1,
              pz := d1.pz + (iso - s 1 0 0) / (s 1 0 1 - s 1 0 0),
              points := d1.points + 1 } else d1
  let d3 := if pointCode &&& EDGE2 ≠ 0 then
    { d2 with px := d2.px + (iso - s 0 0 1) / (s 1 0 1 - s 0 0 1),
              pz := d2.pz + 1,
              points := d2.points + 1 } else d2
  let d4 := if pointCode &&& EDGE3 ≠ 0 then
    { d3 with pz := d3.pz + (iso - s 0 0 0) / (s 0 0 1 - s 0 0 0),
              points := d3.points + 1 } else d3
  let d5 := if pointCode &&& EDGE4 ≠ 0 then
    { d4 with px := d4.px + (iso - s 0 1 0) / (s 1 1 0 - s 0 1 0),
              py := d4.py + 1,
              points := d4.points + 1 } else d4
  let d6 := if pointCode &&& EDGE5 ≠ 0 then
    { d5 with px := d5.px + 1,
              pz := d5.pz + (iso - s 1 1 0) / (s 1 1 1 - s 1 1 0),
              py := d5.py + 1,
              points := d5.points + 1 } else d5
  let d7 := if pointCode &&& EDGE6 ≠ 0 then
    { d6 with px := d6.px + (iso - s 0 1 1) / (s 1 1 1 - s 0 1 1),
              pz := d6.pz + 1,
              py := d6.py + 1,
              points := d6.points + 1 } else d6
  let d8 := if pointCode &&& EDGE7 ≠ 0 then
    { d7 with pz := d7.pz + (iso - s 0 1 0) / (s 0 1 1 - s 0 1 0),
              py := d7.py + 1,
              points := d7.points + 1 } else d7
  let d9 := if pointCode &&& EDGE8 ≠ 0 then
    { d8 with py := d8.py + (iso - s 0 0 0) / (s 0 1 0 - s 0 0 0),
              points := d8.points + 1 } else d8
  let d10 := if pointCode &&& EDGE9 ≠ 0 then
    { d9 with px := d9.px + 1,
              py := d9.py + (iso - s 1 0 0) / (s 1 1 0 - s 1 0 0),
              points := d9.points + 1 } else d9
  let d11 := if pointCode &&& EDGE10 ≠ 0 then
    { d10 with px := d10.px + 1,
               py := d10.py + (iso - s 1 0 1) / (s 1 1 1 - s 1 0 1),
               pz := d10.pz + 1,
               points := d10.points + 1 } else d10
  let d12 := if pointCode &&& EDGE11 ≠ 0 then
    { d11 with pz := d11.pz + 1,
               py := d11.py + (iso - s 0 0 1) / (s 0 1 1 - s 0 0 1),
               points := d11.points + 1 } else d11
  let invPoints : ℚ := 1 / (d12.points : ℚ)
  ((cell.x : ℚ) + d12.px * invPoints,
   (cell.y : ℚ) + d12.py * invPoints,
   (cell.z : ℚ) + d12.pz * invPoints)

/-- Extraction state: the mesh buffers together with the `pointToIndex`
hash map of the mesher, modelled as an association list. -/
structure BState where
  vertices : List (ℚ × ℚ × ℚ)
  indices : List Nat
  pointToIndex : List ((ℤ × Nat) × Nat)
deriving DecidableEq, Repr

/-- First-match lookup in the vertex cache. -/
def lookupIdx : List ((ℤ × Nat) × Nat) → (ℤ × Nat) → Option Nat
  | [], _ => none
  | (k, v) :: rest, key => if k = key then some v else lookupIdx rest key

/-- The `DualPointKey` of a dual point request: linearized cell id paired
with the 12-bit point code. -/
def dualPointKey (vol : Volume) (dims : Int3) (iso : ℚ)
    (generateManifold : Bool) (cell : Int3) (edge : Nat) : ℤ × Nat :=
  (gA3 dims cell, GetDualPointCode vol dims iso generateManifold cell edge)

/-- Shared dual point index, mirroring `Mesher::GetSharedDualPointIndex`:
look the dual point key up in the cache; on a miss, append a freshly
computed vertex and record its index. -/
def GetSharedDualPointIndex (vol : Volume) (dims : Int3) (iso : ℚ)
    (generateManifold : Bool) (cell : Int3) (edge : Nat) (st : BState) :
    Nat × BState :=
  let key : ℤ × Nat := dualPointKey vol dims iso generateManifold cell edge
  match lookupIdx st.pointToIndex key with
  | some index => (index, st)
  | none =>
    let newVertexId := st.vertices.length
    let v := CalculateDualPoint vol dims cell iso key.2
    (newVertexId,
     { st with vertices := st.vertices ++ [v],
               pointToIndex := (key, newVertexId) :: st.pointToIndex })

/-- Face emission, mirroring `Mesher::ConstructFace`: request the four
shared dual points and append one quad or two triangles, wound by `cond`. -/
def ConstructFace (vol : Volume) (dims : Int3) (iso : ℚ)
    (generateManifold : Bool) (topology : Topology) (cond : Bool)
    (cells : Int3 × Int3 × Int3 × Int3) (edges : Nat × Nat × Nat × Nat)
    (st : BState) : BState :=
  let r0 := GetSharedDualPointIndex vol dims iso generateManifold cells.1 edges.1 st
  let r1 := GetSharedDualPointIndex vol dims iso generateManifold cells.2.1 edges.2.1 r0.2
  let r2 := GetSharedDualPointIndex vol dims iso generateManifold cells.2.2.1 edges.2.2.1 r1.2
  let r3 := GetSharedDualPointIndex vol dims iso generateManifold cells.2.2.2 edges.2.2.2 r2.2
  let newIdx : List Nat :=
    if cond then
      if topology = Topology.Quads then [r0.1, r1.1, r2.1, r3.1]
      else [r0.1, r1.1, r2.1, r2.1, r3.1, r0.1]
    else
      if topology = Topology.Quads then [r0.1, r3.1, r2.1, r1.1]
      else [r2.1, r1.1, r0.1, r0.1, r3.1, r2.1]
  { r3.2 with indices := r3.2.indices ++ newIdx }

/-- The x-edge block of the sweep body in `Mesher::BuildInternal`. -/
def xEdgeStep (vol : Volume) (dims : Int3) (iso : ℚ)
    (generateManifold : Bool) (topology : Topology) (xyz : ℤ × ℤ × ℤ)
    (st : BState) : BState :=
  let x := xyz.1
  let y := xyz.2.1
  let z := xyz.2.2
  if z > 0 ∧ y > 0 then
    let es := GetStatus vol dims iso x y z 1 0 0
    if es.1 || es.2 then
      ConstructFace vol dims iso generateManifold topology es.1
        (⟨x, y, z⟩, ⟨x, y, z - 1⟩, ⟨x, y - 1, z - 1⟩, ⟨x, y - 1, z⟩)
        (EDGE0, EDGE2, EDGE6, EDGE4) st
    else st
  else st

/-- The y-edge block of the sweep body in `Mesher::BuildInternal`. -/
def yEdgeStep (vol : Volume) (dims : Int3) (iso : ℚ)
    (generateManifold : Bool) (topology : Topology) (xyz : ℤ × ℤ × ℤ)
    (st : BState) : BState :=
  let x := xyz.1
  let y := xyz.2.1
  let z := xyz.2.2
  if z > 0 ∧ x > 0 then
    let es := GetStatus vol dims iso x y z 0 1 0
    if es.1 || es.2 then
      ConstructFace vol dims iso generateManifold topology es.2
        (⟨x, y, z⟩, ⟨x, y, z - 1⟩, ⟨x - 1, y, z - 1⟩, ⟨x - 1, y, z⟩)
        (EDGE8, EDGE11, EDGE10, EDGE9) st
    else st
  else st

/-- The z-edge block of the sweep body in `Mesher::BuildInternal`. -/
def zEdgeStep (vol : Volume) (dims : Int3) (iso : ℚ)
    (generateManifold : Bool) (topology : Topology) (xyz : ℤ × ℤ × ℤ)
    (st : BState) : BState :=
  let x := xyz.1
  let y := xyz.2.1
  let z := xyz.2.2
  if x > 0 ∧ y > 0 then
    let es := GetStatus vol dims iso x y z 0 0 1
    if es.1 || es.2 then
      ConstructFace vol dims iso generateManifold topology es.2
        (⟨x, y, z⟩, ⟨x - 1, y, z⟩, ⟨x - 1, y - 1, z⟩, ⟨x, y - 1, z⟩)
        (EDGE3, EDGE1, EDGE5, EDGE7) st
    else st
  else st

/-- Sweep body for one cell: the three sequential edge blocks. -/
def cellStep (vol : Volume) (dims : Int3) (iso : ℚ)
    (generateManifold : Bool) (topology : Topology) (st : BState)
    (xyz : ℤ × ℤ × ℤ) : BState :=
  zEdgeStep vol dims iso generateManifold topology xyz
    (yEdgeStep vol dims iso generateManifold topology xyz
      (xEdgeStep vol dims iso generateManifold topology xyz st))

/-- The cell coordinates `0 ≤ c < d - 2` scanned on one axis. -/
def scannedRange (d : ℤ) : List ℤ :=
  (List.range (d - 2).toNat).map Int.ofNat

/-- All swept cells in the iteration order of `Mesher::BuildInternal`
(z outermost, x innermost). -/
def cellList (dims : Int3) : List (ℤ × ℤ × ℤ) :=
  (scannedRange dims.z).flatMap (fun z =>
    (scannedRange dims.y).flatMap (fun y =>
      (scannedRange dims.x).map (fun x => (x, y, z))))

/-- The empty extraction state (`Mesh mesh{}` plus the cleared cache). -/
def initState : BState := ⟨[], [], []⟩

/-- Full extraction sweep, mirroring `Mesher::BuildInternal`. -/
def BuildInternal (vol : Volume) (dims : Int3) (iso : ℚ)
    (generateManifold : Bool) (topology : Topology) : BState :=
  (cellList dims).foldl (cellStep vol dims iso generateManifold topology)
    initState

/-- The returned mesh value. -/
structure Mesh where
  vertices : List (ℚ × ℚ × ℚ)
  indices : List Nat
deriving DecidableEq, Repr

/-- Surface extraction, mirroring `Mesher::Build`. -/
def Build (vol : Volume) (dims : Int3) (iso : ℚ) (generateManifold : Bool)
    (topology : Topology) : Mesh :=
  let st := BuildInternal vol dims iso generateManifold topology
  ⟨st.vertices, st.indices⟩

/-- One face emission of the sweep: the axis of the crossed grid edge
(0 = x, 1 = y, 2 = z), the swept cell, and the edge classification. -/
structure Emission where
  axis : Nat
  cell : ℤ × ℤ × ℤ
  entering : Bool
  exiting : Bool
deriving DecidableEq, Repr

/-- The four cells surrounding the crossed edge of an emission, in the
order `Mesher::BuildInternal` passes them to `ConstructFace`. -/
def emissionCells (e : Emission) : Int3 × Int3 × Int3 × Int3 :=
  let x := e.cell.1
  let y := e.cell.2.1
  let z := e.cell.2.2
  match e.axis with
  | 0 => (⟨x, y, z⟩, ⟨x, y, z - 1⟩, ⟨x, y - 1, z - 1⟩, ⟨x, y - 1, z⟩)
  | 1 => (⟨x, y, z⟩, ⟨x, y, z - 1⟩, ⟨x - 1, y, z - 1⟩, ⟨x - 1, y, z⟩)
  | _ => (⟨x, y, z⟩, ⟨x - 1, y, z⟩, ⟨x - 1, y - 1, z⟩, ⟨x, y - 1, z⟩)

/-- The four cube edge codes of an emission, in the order of the source. -/
def emissionEdges (e : Emission) : Nat × Nat × Nat × Nat :=
  match e.axis with
  | 0 => (EDGE0, EDGE2, EDGE6, EDGE4)
  | 1 => (EDGE8, EDGE11, EDGE10, EDGE9)
  | _ => (EDGE3, EDGE1, EDGE5, EDGE7)

/-- The winding flag `Mesher::BuildInternal` passes to `ConstructFace`:
`entering` for x-axis crossings, `exiting` for y- and z-axis crossings. -/
def emissionCond (e : Emission) : Bool :=
  if e.axis = 0 then e.entering else e.exiting

/-- Processing one emission: the `ConstructFace` call the driver makes. -/
def emissionStep (vol : Volume) (dims : Int3) (iso : ℚ)
    (generateManifold : Bool) (topology : Topology) (st : BState)
    (e : Emission) : BState :=
  ConstructFace vol dims iso generateManifold topology (emissionCond e)
    (emissionCells e) (emissionEdges e) st

/-- The emission (if any) of the x-edge block at one swept cell. -/
def xEmissions (vol : Volume) (dims : Int3) (iso : ℚ)
    (xyz : ℤ × ℤ × ℤ) : List Emission :=
  if xyz.2.2 > 0 ∧ xyz.2.1 > 0 then
    let es := GetStatus vol dims iso xyz.1 xyz.2.1 xyz.2.2 1 0 0
    if es.1 || es.2 then [⟨0, xyz, es.1, es.2⟩] else []
  else []

/-- The emission (if any) of the y-edge block at one swept cell. -/
def yEmissions (vol : Volume) (dims : Int3) (iso : ℚ)
    (xyz : ℤ × ℤ × ℤ) : List Emission :=
  if xyz.2.2 > 0 ∧ xyz.1 > 0 then
    let es := GetStatus vol dims iso xyz.1 xyz.2.1 xyz.2.2 0 1 0
    if es.1 || es.2 then [⟨1, xyz, es.1, es.2⟩] else []
  else []

/-- The emission (if any) of the z-edge block at one swept cell. -/
def zEmissions (vol : Volume) (dims : Int3) (iso : ℚ)
    (xyz : ℤ × ℤ × ℤ) : List Emission :=
  if xyz.1 > 0 ∧ xyz.2.1 > 0 then
    let es := GetStatus vol dims iso xyz.1 xyz.2.1 xyz.2.2 0 0 1
    if es.1 || es.2 then [⟨2, xyz, es.1, es.2⟩] else []
  else []

/-- The emissions produced while sweeping one cell: each edge block
contributes one emission when its border guard holds and the edge has a
sign change. -/
def cellEmissions (vol : Volume) (dims : Int3) (iso : ℚ)
    (xyz : ℤ × ℤ × ℤ) : List Emission :=
  xEmissions vol dims iso xyz ++ yEmissions vol dims iso xyz ++
    zEmissions vol dims iso xyz

/-- All face emissions of one extraction sweep, in order. -/
def sweepEmissions (vol : Volume) (dims : Int3) (iso : ℚ) : List Emission :=
  (cellList dims).flatMap (cellEmissions vol dims iso)

/-- Number of set bits among the 12 edge bits of a point code: exactly the
number of `points` accumulated by `CalculateDualPoint` for that code. -/
def popcount12 (m : Nat) : Nat :=
  ((List.range 12).filter (fun k => m.testBit k)).length

/-- Test volume TV1 on a 4 x 3 x 4 grid: a single `1` sample at grid
coordinate (1,0,1) (linearized address 13), all other samples `0`.  With
iso 1 its only interior sign change is the entering y edge at cell
(1,0,1). -/
def TV1 : Volume := fun i => if i = 13 then 1 else 0

/-- Grid dimensions of `TV1`. -/
def dimsTV1 : Int3 := ⟨4, 3, 4⟩

/-- Test volume TV8 on a 4 x 4 x 4 grid: a single `1` sample at grid
coordinate (0,1,1) (linearized address 20), all other samples `0`.  With
iso 1 its only interior sign change is the entering x edge at cell
(0,1,1), a cell with x-coordinate 0. -/
def TV8 : Volume := fun i => if i = 20 then 1 else 0

/-- Grid dimensions of `TV8`. -/
def dimsTV8 : Int3 := ⟨4, 4, 4⟩

/-- The eight corner coordinates of a 3 x 3 x 3 sample grid. -/
def corner3 (k : Fin 8) : Int3 :=
  ⟨if k.val &&& 1 = 1 then 2 else 0,
   if k.val &&& 2 = 2 then 2 else 0,
   if k.val &&& 4 = 4 then 2 else 0⟩

/-- A 3 x 3 x 3 binary volume whose sample at corner `k` is `0` and whose
other samples are all `1`. -/
def cornerVolume (k : Fin 8) : Volume :=
  fun i => if i = gA3 ⟨3, 3, 3⟩ (corner3 k) then 0 else 1

/-- The vertex cache invariant maintained throughout one extraction:
all stored and emitted indices point below the vertex count, and the
cache is injective in both directions. -/
def CacheInv (st : BState) : Prop :=
  (∀ i ∈ st.indices, i < st.vertices.length) ∧
  (∀ kv ∈ st.pointToIndex, kv.2 < st.vertices.length) ∧
  (st.pointToIndex.map Prod.fst).Nodup ∧
  (st.pointToIndex.map Prod.snd).Nodup

theorem lookupIdx_eq_none {l : List ((ℤ × Nat) × Nat)} {k : ℤ × Nat}
    (h : lookupIdx l k = none) : ∀ kv ∈ l, kv.1 ≠ k := by
  induction l with
  | nil => intro kv hkv; cases hkv
  | cons a rest ih =>
    intro kv hkv
    rw [lookupIdx] at h
    by_cases ha : a.1 = k
    · simp [ha] at h
    · rcases List.mem_cons.mp hkv with hkv | hkv
      · simpa [hkv] using ha
      · exact ih (by simpa [ha] using h) kv hkv

theorem lookupIdx_mem {l : List ((ℤ × Nat) × Nat)} {k : ℤ × Nat} {i : Nat}
    (h : lookupIdx l k = some i) : (k, i) ∈ l := by
  induction l with
  | nil => cases h
  | cons a rest ih =>
    rw [lookupIdx] at h
    by_cases ha : a.1 = k
    · rw [if_pos ha] at h
      have h2 : a.2 = i := Option.some.inj h
      have hak : a = (k, i) := by
        obtain ⟨a1, a2⟩ := a
        simp only at ha h2
        rw [ha, h2]
      rw [hak]
      exact List.mem_cons_self _ _
    · exact List.mem_cons_of_mem _ (ih (by simpa [ha] using h))

theorem getShared_cases (vol : Volume) (dims : Int3) (iso : ℚ) (gm : Bool)
    (cell : Int3) (edge : Nat) (st : BState) :
    (∃ i, lookupIdx st.pointToIndex (dualPointKey vol dims iso gm cell edge) = some i ∧
      GetSharedDualPointIndex vol dims iso gm cell edge st = (i, st)) ∨
    (lookupIdx st.pointToIndex (dualPointKey vol dims iso gm cell edge) = none ∧
      GetSharedDualPointIndex vol dims iso gm cell edge st =
        (st.vertices.length,
         ⟨st.vertices ++ [CalculateDualPoint vol dims cell iso
            (dualPointKey vol dims iso gm cell edge).2],
          st.indices,
          (dualPointKey vol dims iso gm cell edge, st.vertices.length) ::
            st.pointToIndex⟩)) := by
  cases h : lookupIdx st.pointToIndex (dualPointKey vol dims iso gm cell edge) with
  | none => exact Or.inr ⟨rfl, by simp only [GetSharedDualPointIndex, h]⟩
  | some i => exact Or.inl ⟨i, rfl, by simp only [GetSharedDualPointIndex, h]⟩

theorem getShared_indices (vol : Volume) (dims : Int3) (iso : ℚ) (gm : Bool)
    (cell : Int3) (edge : Nat) (st : BState) :
    (GetSharedDualPointIndex vol dims iso gm cell edge st).2.indices =
      st.indices := by
  rcases getShared_cases vol dims iso gm cell edge st with ⟨i, _, h⟩ | ⟨_, h⟩ <;>
    rw [h]

theorem getShared_len_mono (vol : Volume) (dims : Int3) (iso : ℚ) (gm : Bool)
    (cell : Int3) (edge : Nat) (st : BState) :
    st.vertices.length ≤
      (GetSharedDualPointIndex vol dims iso gm cell edge st).2.vertices.length := by
  rcases getShared_cases vol dims iso gm cell edge st with ⟨i, _, h⟩ | ⟨_, h⟩ <;>
    simp [h]

theorem getShared_core_congr (vol : Volume) (dims : Int3) (iso : ℚ) (gm : Bool)
    (cell : Int3) (edge : Nat) (st₁ st₂ : BState)
    (hv : st₁.vertices = st₂.vertices)
    (hm : st₁.pointToIndex = st₂.pointToIndex) :
    (GetSharedDualPointIndex vol dims iso gm cell edge st₁).1 =
      (GetSharedDualPointIndex vol dims iso gm cell edge st₂).1 ∧
    (GetSharedDualPointIndex vol dims iso gm cell edge st₁).2.vertices =
      (GetSharedDualPointIndex vol dims iso gm cell edge st₂).2.vertices ∧
    (GetSharedDualPointIndex vol dims iso gm cell edge st₁).2.pointToIndex =
      (GetSharedDualPointIndex vol dims iso gm cell edge st₂).2.pointToIndex := by
  rcases getShared_cases vol dims iso gm cell edge st₁ with ⟨i, h1, e1⟩ | ⟨h1, e1⟩ <;>
    rcases getShared_cases vol dims iso gm cell edge st₂ with ⟨j, h2, e2⟩ | ⟨h2, e2⟩
  · rw [hm, h2] at h1
    cases h1
    simp [e1, e2, hv, hm]
  · rw [hm, h2] at h1
    cases h1
  · rw [hm, h2] at h1
    cases h1
  · simp [e1, e2, hv, hm]

theorem getShared_inv (vol : Volume) (dims : Int3) (iso : ℚ) (gm : Bool)
    (cell : Int3) (edge : Nat) (st : BState) (h : CacheInv st) :
    CacheInv (GetSharedDualPointIndex vol dims iso gm cell edge st).2 ∧
    (GetSharedDualPointIndex vol dims iso gm cell edge st).1 <
      (GetSharedDualPointIndex vol dims iso gm cell edge st).2.vertices.length := by
  obtain ⟨hidx, hmap, hkeys, hvals⟩ := h
  rcases getShared_cases vol dims iso gm cell edge st with ⟨i, hl, he⟩ | ⟨hl, he⟩
  · rw [he]
    exact ⟨⟨hidx, hmap, hkeys, hvals⟩, hmap _ (lookupIdx_mem hl)⟩
  · rw [he]
    refine ⟨⟨?_, ?_, ?_, ?_⟩, ?_⟩
    · intro i hi
      simp only [List.length_append, List.length_cons, List.length_nil]
      exact Nat.lt_succ_of_lt (hidx i hi)
    · intro kv hkv
      simp only [List.length_append, List.length_cons, List.length_nil]
      rcases List.mem_cons.mp hkv with hkv | hkv
      · simp [hkv]
      · exact Nat.lt_succ_of_lt (hmap kv hkv)
    · simp only [List.map_cons, List.nodup_cons]
      refine ⟨?_, hkeys⟩
      intro hmem
      obtain ⟨kv, hkv, hfst⟩ := List.mem_map.mp hmem
      exact lookupIdx_eq_none hl kv hkv hfst
    · simp only [List.map_cons, List.nodup_cons]
      refine ⟨?_, hvals⟩
      intro hmem
      obtain ⟨kv, hkv, hsnd⟩ := List.mem_map.mp hmem
      exact absurd (hsnd ▸ hmap kv hkv) (lt_irrefl _)
    · simp

theorem foldl_flatMap {α β σ : Type} (g : α → List β) (f : σ → β → σ) :
    ∀ (l : List α) (s : σ),
      (l.flatMap g).foldl f s = l.foldl (fun s a => (g a).foldl f s) s := by
  intro l
  induction l with
  | nil => intro s; rfl
  | cons a t ih =>
    intro s
    simp only [List.flatMap_cons, List.foldl_append, List.foldl_cons]
    exact ih _

theorem foldl_inv {α σ : Type} (P : σ → Prop) (f : σ → α → σ)
    (h : ∀ s a, P s → P (f s a)) :
    ∀ (l : List α) (s : σ), P s → P (l.foldl f s) := by
  intro l
  induction l with
  | nil => intro s hs; exact hs
  | cons a t ih => intro s hs; exact ih _ (h s a hs)

theorem foldl_rel {α σ₁ σ₂ : Type} (R : σ₁ → σ₂ → Prop) (f : σ₁ → α → σ₁)
    (g : σ₂ → α → σ₂) (h : ∀ a s₁ s₂, R s₁ s₂ → R (f s₁ a) (g s₂ a)) :
    ∀ (l : List α) (s₁ : σ₁) (s₂ : σ₂), R s₁ s₂ → R (l.foldl f s₁) (l.foldl g s₂) := by
  intro l
  induction l with
  | nil => intro s₁ s₂ hs; exact hs
  | cons a t ih => intro s₁ s₂ hs; exact ih _ _ (h a s₁ s₂ hs)

theorem foldl_fixed {α σ : Type} (f : σ → α → σ) (h : ∀ s a, f s a = s) :
    ∀ (l : List α) (s : σ), l.foldl f s = s := by
  intro l
  induction l with
  | nil => intro s; rfl
  | cons a t ih => intro s; rw [List.foldl_cons, h]; exact ih s

theorem constructFace_indices (vol : Volume) (dims : Int3) (iso : ℚ)
    (gm : Bool) (topology : Topology) (cond : Bool)
    (cells : Int3 × Int3 × Int3 × Int3) (edges : Nat × Nat × Nat × Nat)
    (st : BState) :
    (ConstructFace vol dims iso gm topology cond cells edges st).indices =
      st.indices ++
        (let r0 := GetSharedDualPointIndex vol dims iso gm cells.1 edges.1 st
         let r1 := GetSharedDualPointIndex vol dims iso gm cells.2.1 edges.2.1 r0.2
         let r2 := GetSharedDualPointIndex vol dims iso gm cells.2.2.1 edges.2.2.1 r1.2
         let r3 := GetSharedDualPointIndex vol dims iso gm cells.2.2.2 edges.2.2.2 r2.2
         if cond then
           if topology = Topology.Quads then [r0.1, r1.1, r2.1, r3.1]
           else [r0.1, r1.1, r2.1, r2.1, r3.1, r0.1]
         else
           if topology = Topology.Quads then [r0.1, r3.1, r2.1, r1.1]
           else [r2.1, r1.1, r0.1, r0.1, r3.1, r2.1]) := by
  simp only [ConstructFace, getShared_indices]

theorem constructFace_len (vol : Volume) (dims : Int3) (iso : ℚ)
    (gm : Bool) (topology : Topology) (cond : Bool)
    (cells : Int3 × Int3 × Int3 × Int3) (edges : Nat × Nat × Nat × Nat)
    (st : BState) :
    (ConstructFace vol dims iso gm topology cond cells edges st).indices.length =
      st.indices.length + (if topology = Topology.Quads then 4 else 6) := by
  rw [constructFace_indices]
  rcases topology <;> rcases cond <;> simp

theorem constructFace_core_congr (vol : Volume) (dims : Int3) (iso : ℚ)
    (gm : Bool) (t₁ t₂ : Topology) (cond : Bool)
    (cells : Int3 × Int3 × Int3 × Int3) (edges : Nat × Nat × Nat × Nat)
    (st₁ st₂ : BState) (hv : st₁.vertices = st₂.vertices)
    (hm : st₁.pointToIndex = st₂.pointToIndex) :
    (ConstructFace vol dims iso gm t₁ cond cells edges st₁).vertices =
      (ConstructFace vol dims iso gm t₂ cond cells edges st₂).vertices ∧
    (ConstructFace vol dims iso gm t₁ cond cells edges st₁).pointToIndex =
      (ConstructFace vol dims iso gm t₂ cond cells edges st₂).pointToIndex := by
  obtain ⟨e0, v0, m0⟩ :=
    getShared_core_congr vol dims iso gm cells.1 edges.1 st₁ st₂ hv hm
  obtain ⟨e1, v1, m1⟩ :=
    getShared_core_congr vol dims iso gm cells.2.1 edges.2.1 _ _ v0 m0
  obtain ⟨e2, v2, m2⟩ :=
    getShared_core_congr vol dims iso gm cells.2.2.1 edges.2.2.1 _ _ v1 m1
  obtain ⟨e3, v3, m3⟩ :=
    getShared_core_congr vol dims iso gm cells.2.2.2 edges.2.2.2 _ _ v2 m2
  exact ⟨v3, m3⟩

theorem constructFace_inv (vol : Volume) (dims : Int3) (iso : ℚ)
    (gm : Bool) (topology : Topology) (cond : Bool)
    (cells : Int3 × Int3 × Int3 × Int3) (edges : Nat × Nat × Nat × Nat)
    (st : BState) (h : CacheInv st) :
    CacheInv (ConstructFace vol dims iso gm topology cond cells edges st) := by
  have h0 := getShared_inv vol dims iso gm cells.1 edges.1 st h
  have h1 := getShared_inv vol dims iso gm cells.2.1 edges.2.1 _ h0.1
  have h2 := getShared_inv vol dims iso gm cells.2.2.1 edges.2.2.1 _ h1.1
  have h3 := getShared_inv vol dims iso gm cells.2.2.2 edges.2.2.2 _ h2.1
  have l1 := getShared_len_mono vol dims iso gm cells.2.1 edges.2.1
    (GetSharedDualPointIndex vol dims iso gm cells.1 edges.1 st).2
  have l2 := getShared_len_mono vol dims iso gm cells.2.2.1 edges.2.2.1
    (GetSharedDualPointIndex vol dims iso gm cells.2.1 edges.2.1
      (GetSharedDualPointIndex vol dims iso gm cells.1 edges.1 st).2).2
  have l3 := getShared_len_mono vol dims iso gm cells.2.2.2 edges.2.2.2
    (GetSharedDualPointIndex vol dims iso gm cells.2.2.1 edges.2.2.1
      (GetSharedDualPointIndex vol dims iso gm cells.2.1 edges.2.1
        (GetSharedDualPointIndex vol dims iso gm cells.1 edges.1 st).2).2).2
  obtain ⟨⟨hI3, hM3, hK3, hV3⟩, hlt3⟩ := h3
  have hb0 := lt_of_lt_of_le h0.2 (le_trans l1 (le_trans l2 l3))
  have hb1 := lt_of_lt_of_le h1.2 (le_trans l2 l3)
  have hb2 := lt_of_lt_of_le h2.2 l3
  refine ⟨?_, hM3, hK3, hV3⟩
  intro i hi
  rcases List.mem_append.mp hi with hi | hi
  · exact hI3 i hi
  · rcases cond <;> rcases topology <;>
      simp only [Bool.false_eq_true, if_false, if_true, List.mem_cons,
        List.mem_singleton, List.not_mem_nil, or_false, reduceCtorEq,
        reduceIte] at hi <;>
      rcases hi with rfl | rfl | rfl | rfl | rfl | rfl <;>
      first
        | exact hb0
        | exact hb1
        | exact hb2
        | exact hlt3

theorem xEdgeStep_eq (vol : Volume) (dims : Int3) (iso : ℚ) (gm : Bool)
    (t : Topology) (xyz : ℤ × ℤ × ℤ) (st : BState) :
    xEdgeStep vol dims iso gm t xyz st =
      (xEmissions vol dims iso xyz).foldl (emissionStep vol dims iso gm t) st := by
  simp only [xEdgeStep, xEmissions]
  split
  · split <;> rfl
  · rfl

theorem yEdgeStep_eq (vol : Volume) (dims : Int3) (iso : ℚ) (gm : Bool)
    (t : Topology) (xyz : ℤ × ℤ × ℤ) (st : BState) :
    yEdgeStep vol dims iso gm t xyz st =
      (yEmissions vol dims iso xyz).foldl (emissionStep vol dims iso gm t) st := by
  simp only [yEdgeStep, yEmissions]
  split
  · split <;> rfl
  · rfl

theorem zEdgeStep_eq (vol : Volume) (dims : Int3) (iso : ℚ) (gm : Bool)
    (t : Topology) (xyz : ℤ × ℤ × ℤ) (st : BState) :
    zEdgeStep vol dims iso gm t xyz st =
      (zEmissions vol dims iso xyz).foldl (emissionStep vol dims iso gm t) st := by
  simp only [zEdgeStep, zEmissions]
  split
  · split <;> rfl
  · rfl

theorem cellStep_eq (vol : Volume) (dims : Int3) (iso : ℚ) (gm : Bool)
    (t : Topology) (st : BState) (xyz : ℤ × ℤ × ℤ) :
    cellStep vol dims iso gm t st xyz =
      (cellEmissions vol dims iso xyz).foldl (emissionStep vol dims iso gm t) st := by
  simp only [cellStep, cellEmissions, List.foldl_append]
  rw [xEdgeStep_eq, yEdgeStep_eq, zEdgeStep_eq]

theorem BuildInternal_emissions (vol : Volume) (dims : Int3) (iso : ℚ)
    (gm : Bool) (t : Topology) :
    BuildInternal vol dims iso gm t =
      (sweepEmissions vol dims iso).foldl (emissionStep vol dims iso gm t)
        initState := by
  unfold BuildInternal sweepEmissions
  rw [foldl_flatMap]
  have hstep : cellStep vol dims iso gm t =
      fun s c => (cellEmissions vol dims iso c).foldl
        (emissionStep vol dims iso gm t) s := by
    funext s c
    exact cellStep_eq vol dims iso gm t s c
  rw [hstep]

theorem initState_inv : CacheInv initState := by
  refine ⟨?_, ?_, ?_, ?_⟩ <;> simp [initState]

theorem buildInternal_inv (vol : Volume) (dims : Int3) (iso : ℚ) (gm : Bool)
    (t : Topology) : CacheInv (BuildInternal vol dims iso gm t) := by
  rw [BuildInternal_emissions]
  refine foldl_inv CacheInv _ ?_ _ initState initState_inv
  intro s e hs
  exact constructFace_inv vol dims iso gm t (emissionCond e) (emissionCells e)
    (emissionEdges e) s hs

theorem status_uniform (vol : Volume) (dims : Int3) (iso : ℚ)
    (h : (∀ i, iso ≤ vol i) ∨ (∀ i, vol i < iso)) (x y z a b c : ℤ) :
    GetStatus vol dims iso x y z a b c = (false, false) := by
  rcases h with h | h
  · have h1 : ∀ j : ℤ, ¬ (vol j < iso) := fun j => not_lt.mpr (h j)
    simp [GetStatus, h1]
  · have h1 : ∀ j : ℤ, ¬ (iso ≤ vol j) := fun j => not_le.mpr (h j)
    simp [GetStatus, h1]

theorem cellEmissions_uniform_nil (vol : Volume) (dims : Int3) (iso : ℚ)
    (h : (∀ i, iso ≤ vol i) ∨ (∀ i, vol i < iso)) (xyz : ℤ × ℤ × ℤ) :
    cellEmissions vol dims iso xyz = [] := by
  simp [cellEmissions, xEmissions, yEmissions, zEmissions,
    status_uniform vol dims iso h]

theorem mem_scannedRange {d x : ℤ} (h : x ∈ scannedRange d) :
    0 ≤ x ∧ x < d - 2 := by
  rw [scannedRange] at h
  obtain ⟨n, hn, rfl⟩ := List.mem_map.mp h
  rw [List.mem_range] at hn
  exact ⟨Int.natCast_nonneg n, Int.lt_toNat.mp hn⟩

theorem mem_cellList {dims : Int3} {c : ℤ × ℤ × ℤ} (h : c ∈ cellList dims) :
    (0 ≤ c.1 ∧ c.1 < dims.x - 2) ∧ (0 ≤ c.2.1 ∧ c.2.1 < dims.y - 2) ∧
      (0 ≤ c.2.2 ∧ c.2.2 < dims.z - 2) := by
  simp only [cellList, List.mem_flatMap, List.mem_map] at h
  obtain ⟨z, hz, y, hy, x, hx, rfl⟩ := h
  exact ⟨mem_scannedRange hx, mem_scannedRange hy, mem_scannedRange hz⟩

theorem mem_cellEmissions {vol : Volume} {dims : Int3} {iso : ℚ}
    {e : Emission} {xyz : ℤ × ℤ × ℤ}
    (h : e ∈ cellEmissions vol dims iso xyz) :
    e.cell = xyz ∧
    ((e.axis = 0 ∧ 0 < xyz.2.2 ∧ 0 < xyz.2.1) ∨
     (e.axis = 1 ∧ 0 < xyz.2.2 ∧ 0 < xyz.1) ∨
     (e.axis = 2 ∧ 0 < xyz.1 ∧ 0 < xyz.2.1)) := by
  simp only [cellEmissions, List.mem_append] at h
  rcases h with (h | h) | h
  · simp only [xEmissions] at h
    split_ifs at h with hg hs
    · have he := List.mem_singleton.mp h
      subst he
      exact ⟨rfl, Or.inl ⟨rfl, hg.1, hg.2⟩⟩
    · simp at h
    · simp at h
  · simp only [yEmissions] at h
    split_ifs at h with hg hs
    · have he := List.mem_singleton.mp h
      subst he
      exact ⟨rfl, Or.inr (Or.inl ⟨rfl, hg.1, hg.2⟩)⟩
    · simp at h
    · simp at h
  · simp only [zEmissions] at h
    split_ifs at h with hg hs
    · have he := List.mem_singleton.mp h
      subst he
      exact ⟨rfl, Or.inr (Or.inr ⟨rfl, hg.1, hg.2⟩)⟩
    · simp at h
    · simp at h

/-- The relation coupling a Quads run and a Triangles run of the sweep on
the same input: identical vertices and cache, and index counts in the
3 : 2 ratio with the respective divisibility. -/
def TopoRel (sq st : BState) : Prop :=
  sq.vertices = st.vertices ∧ sq.pointToIndex = st.pointToIndex ∧
  2 * st.indices.length = 3 * sq.indices.length ∧
  sq.indices.length % 4 = 0 ∧ st.indices.length % 3 = 0

theorem emissionStep_rel (vol : Volume) (dims : Int3) (iso : ℚ) (gm : Bool)
    (e : Emission) (sq st : BState) (h : TopoRel sq st) :
    TopoRel (emissionStep vol dims iso gm Topology.Quads sq e)
      (emissionStep vol dims iso gm Topology.Triangles st e) := by
  obtain ⟨hv, hm, hr, h4, h3⟩ := h
  obtain ⟨cv, cm⟩ := constructFace_core_congr vol dims iso gm Topology.Quads
    Topology.Triangles (emissionCond e) (emissionCells e) (emissionEdges e)
    sq st hv hm
  have lq := constructFace_len vol dims iso gm Topology.Quads (emissionCond e)
    (emissionCells e) (emissionEdges e) sq
  have lt3 := constructFace_len vol dims iso gm Topology.Triangles
    (emissionCond e) (emissionCells e) (emissionEdges e) st
  simp only [reduceIte, reduceCtorEq] at lq lt3
  refine ⟨cv, cm, ?_, ?_, ?_⟩ <;>
    simp only [emissionStep, lq, lt3] <;> omega

/-- Modelled from the spec's wording of the Manifold Resolver (section
4.2): invert the cube code exactly when the code is ambiguous, the
neighbor obtained by offsetting the cell coordinate by the decoded sign
along the decoded axis is within the valid cell range on that axis, and
that neighbor's code is ambiguous too. -/
def specManifoldCode (vol : Volume) (dims : Int3) (iso : ℚ) (cell : Int3) :
    Nat :=
  let cubeCode := GetCellCode vol dims cell iso
  let direction := problematicConfigs.getD cubeCode 255
  let component := direction >>> 1
  let delta : ℤ := if direction &&& 1 = 1 then 1 else -1
  let neighbor := cell.set component (cell.get component + delta)
  if direction ≠ 255 ∧
      (0 ≤ neighbor.get component ∧
        neighbor.get component < dims.get component - 1) ∧
      problematicConfigs.getD (GetCellCode vol dims neighbor iso) 255 ≠ 255
  then cubeCode ^^^ 0xff
  else cubeCode

/-- Claim C1 (counterexample): on the volume `TV1` the only interior sign
change is an entering y-edge crossing at cell (1,0,1), yet the driver
emits the quad in reversed order [0,3,2,1] (and the triangles as
[2,1,0,0,3,2]), not in the given order [0,1,2,3] that the claim predicts
for an entering crossing: the winding rule is not uniform over the three
axes. -/
theorem C1_counterexample :
    GetStatus TV1 dimsTV1 1 1 0 1 0 1 0 = (true, false) ∧
    sweepEmissions TV1 dimsTV1 1 = [⟨1, (1, 0, 1), true, false⟩] ∧
    (Build TV1 dimsTV1 1 false Topology.Quads).indices = [0, 3, 2, 1] ∧
    (ConstructFace TV1 dimsTV1 1 false Topology.Quads true
        (⟨1, 0, 1⟩, ⟨1, 0, 0⟩, ⟨0, 0, 0⟩, ⟨0, 0, 1⟩)
        (EDGE8, EDGE11, EDGE10, EDGE9) initState).indices = [0, 1, 2, 3] ∧
    (Build TV1 dimsTV1 1 false Topology.Triangles).indices =
      [2, 1, 0, 0, 3, 2] := by
  decide

/-- Claim C1 (amended): for every face emission, with Quad topology the
four dual-vertex indices are appended in the given order (i0,i1,i2,i3)
when the winding flag holds and reversed (i0,i3,i2,i1) otherwise, with
Triangle topology as (i0,i1,i2)+(i2,i3,i0) resp. (i2,i1,i0)+(i0,i3,i2);
the driver's winding flag is `entering` for x-axis crossings but
`exiting` for y- and z-axis crossings, and the sweep is exactly the fold
of these emissions. -/
theorem C1_face_order (vol : Volume) (dims : Int3) (iso : ℚ) (gm : Bool)
    (cond : Bool) (cells : Int3 × Int3 × Int3 × Int3)
    (edges : Nat × Nat × Nat × Nat) (st : BState) (t : Topology)
    (e : Emission) (s : BState) :
    ((ConstructFace vol dims iso gm Topology.Quads cond cells edges st).indices =
      st.indices ++
        (let r0 := GetSharedDualPointIndex vol dims iso gm cells.1 edges.1 st
         let r1 := GetSharedDualPointIndex vol dims iso gm cells.2.1 edges.2.1 r0.2
         let r2 := GetSharedDualPointIndex vol dims iso gm cells.2.2.1 edges.2.2.1 r1.2
         let r3 := GetSharedDualPointIndex vol dims iso gm cells.2.2.2 edges.2.2.2 r2.2
         if cond then [r0.1, r1.1, r2.1, r3.1]
         else [r0.1, r3.1, r2.1, r1.1])) ∧
    ((ConstructFace vol dims iso gm Topology.Triangles cond cells edges st).indices =
      st.indices ++
        (let r0 := GetSharedDualPointIndex vol dims iso gm cells.1 edges.1 st
         let r1 := GetSharedDualPointIndex vol dims iso gm cells.2.1 edges.2.1 r0.2
         let r2 := GetSharedDualPointIndex vol dims iso gm cells.2.2.1 edges.2.2.1 r1.2
         let r3 := GetSharedDualPointIndex vol dims iso gm cells.2.2.2 edges.2.2.2 r2.2
         if cond then [r0.1, r1.1, r2.1, r2.1, r3.1, r0.1]
         else [r2.1, r1.1, r0.1, r0.1, r3.1, r2.1])) ∧
    (emissionStep vol dims iso gm t s e =
      ConstructFace vol dims iso gm t
        (if e.axis = 0 then e.entering else e.exiting)
        (emissionCells e) (emissionEdges e) s) ∧
    (BuildInternal vol dims iso gm t =
      (sweepEmissions vol dims iso).foldl (emissionStep vol dims iso gm t)
        initState) := by
  refine ⟨?_, ?_, rfl, BuildInternal_emissions vol dims iso gm t⟩
  · simpa using constructFace_indices vol dims iso gm Topology.Quads cond
      cells edges st
  · simpa using constructFace_indices vol dims iso gm Topology.Triangles cond
      cells edges st

/-- Claim C2 (counterexample): a 3x3x3 binary volume with the (0,0,0)
corner sample 0 and all other samples 1, at iso 1/2, yields an empty
mesh: the sweep's interior guards skip every cell of a 3x3x3 volume, so
no non-empty patch is produced. -/
theorem C2_counterexample :
    (Build (cornerVolume 0) ⟨3, 3, 3⟩ (1/2) false Topology.Quads).vertices = [] ∧
    (Build (cornerVolume 0) ⟨3, 3, 3⟩ (1/2) false Topology.Quads).indices = [] := by
  decide

/-- Claim C2 (amended): for every 3x3x3 volume with samples in 01 in
which exactly one corner sample is 0 and all other samples are 1,
extraction with iso 1/2 produces the empty mesh (no vertices and no
indices), for every manifold flag and topology. -/
theorem C2_empty_mesh : ∀ (k : Fin 8) (gm : Bool),
    Build (cornerVolume k) ⟨3, 3, 3⟩ (1/2) gm Topology.Quads = ⟨[], []⟩ ∧
    Build (cornerVolume k) ⟨3, 3, 3⟩ (1/2) gm Topology.Triangles = ⟨[], []⟩ := by
  decide

/-- Claim C3: with the manifold flag set the cube code is complemented
exactly when the code is ambiguous, the decoded neighbor lies within the
valid cell range on the decoded axis, and the neighbor's code is
ambiguous too; otherwise, and always with the flag off, the raw
classifier code is used. -/
theorem C3_manifold_resolution (vol : Volume) (dims : Int3) (iso : ℚ)
    (cell : Int3) :
    GetDualPointCodeCube vol dims iso true cell =
      specManifoldCode vol dims iso cell ∧
    GetDualPointCodeCube vol dims iso false cell =
      GetCellCode vol dims cell iso := by
  constructor
  · simp only [GetDualPointCodeCube, specManifoldCode]
    split_ifs <;> first | rfl | tauto
  · rfl

/-- Claim C4: a dual point request returns the cached index on a hit and
the current vertex count on a miss (appending exactly one vertex and
recording the key), existing mappings are never updated, and at the end
of any extraction both the keys and the vertex indices of the cache are
pairwise distinct — no two emitted vertices share a key. -/
theorem C4_vertex_cache (vol : Volume) (dims : Int3) (iso : ℚ) (gm : Bool)
    (cell : Int3) (edge : Nat) (st : BState) (t : Topology) :
    (GetSharedDualPointIndex vol dims iso gm cell edge st).1 =
      (lookupIdx st.pointToIndex
        (dualPointKey vol dims iso gm cell edge)).getD st.vertices.length ∧
    (GetSharedDualPointIndex vol dims iso gm cell edge st).2.vertices =
      st.vertices ++
        (if (lookupIdx st.pointToIndex
              (dualPointKey vol dims iso gm cell edge)).isSome then []
         else [CalculateDualPoint vol dims cell iso
                 (dualPointKey vol dims iso gm cell edge).2]) ∧
    (GetSharedDualPointIndex vol dims iso gm cell edge st).2.indices =
      st.indices ∧
    (∀ k, lookupIdx
        (GetSharedDualPointIndex vol dims iso gm cell edge st).2.pointToIndex k =
      if k = dualPointKey vol dims iso gm cell edge
      then some (GetSharedDualPointIndex vol dims iso gm cell edge st).1
      else lookupIdx st.pointToIndex k) ∧
    ((BuildInternal vol dims iso gm t).pointToIndex.map Prod.fst).Nodup ∧
    ((BuildInternal vol dims iso gm t).pointToIndex.map Prod.snd).Nodup := by
  have hinv := buildInternal_inv vol dims iso gm t
  rcases getShared_cases vol dims iso gm cell edge st with ⟨i, hl, he⟩ | ⟨hl, he⟩
  · refine ⟨?_, ?_, ?_, ?_, hinv.2.2.1, hinv.2.2.2⟩
    · rw [he, hl]; rfl
    · rw [he, hl]; simp
    · rw [he]
    · intro k
      by_cases hk : k = dualPointKey vol dims iso gm cell edge
      · rw [he, if_pos hk, hk, hl]
      · rw [he, if_neg hk]
  · refine ⟨?_, ?_, ?_, ?_, hinv.2.2.1, hinv.2.2.2⟩
    · rw [he, hl]; rfl
    · rw [he, hl]; simp
    · rw [he]
    · intro k
      rw [he]
      show lookupIdx
        ((dualPointKey vol dims iso gm cell edge, st.vertices.length) ::
          st.pointToIndex) k = _
      rw [lookupIdx]
      by_cases hk : k = dualPointKey vol dims iso gm cell edge
      · rw [if_pos hk.symm, if_pos hk]
      · rw [if_neg (fun hx => hk hx.symm), if_neg hk]

/-- Claim C5: a volume with all samples at or above iso, or all samples
below iso, extracts to a mesh with empty vertex and index sequences, for
every manifold flag and topology. -/
theorem C5_uniform_empty (vol : Volume) (dims : Int3) (iso : ℚ) (gm : Bool)
    (t : Topology)
    (h : (∀ i, iso ≤ vol i) ∨ (∀ i, vol i < iso)) :
    Build vol dims iso gm t = ⟨[], []⟩ := by
  have hcs : ∀ (s : BState) (c : ℤ × ℤ × ℤ),
      cellStep vol dims iso gm t s c = s := by
    intro s c
    rw [cellStep_eq, cellEmissions_uniform_nil vol dims iso h]
    rfl
  unfold Build BuildInternal
  rw [foldl_fixed _ hcs]
  rfl

theorem C5_uniform_empty_witness :
    Build (fun _ => (1 : ℚ)) ⟨3, 3, 3⟩ 0 false Topology.Quads = ⟨[], []⟩ :=
  C5_uniform_empty _ _ _ _ _ (Or.inl (fun i => by norm_num))

/-- Claim C6: for every input the Quads index count is divisible by 4,
the Triangles index count is divisible by 3, and the Triangles count is
exactly 1.5 times the Quads count. -/
theorem C6_topology_counts (vol : Volume) (dims : Int3) (iso : ℚ)
    (gm : Bool) :
    (Build vol dims iso gm Topology.Quads).indices.length % 4 = 0 ∧
    (Build vol dims iso gm Topology.Triangles).indices.length % 3 = 0 ∧
    2 * (Build vol dims iso gm Topology.Triangles).indices.length =
      3 * (Build vol dims iso gm Topology.Quads).indices.length := by
  have hrel : TopoRel (BuildInternal vol dims iso gm Topology.Quads)
      (BuildInternal vol dims iso gm Topology.Triangles) := by
    rw [BuildInternal_emissions, BuildInternal_emissions]
    exact foldl_rel TopoRel _ _
      (fun e s1 s2 hr => emissionStep_rel vol dims iso gm e s1 s2 hr) _
      initState initState ⟨rfl, rfl, rfl, rfl, rfl⟩
  exact ⟨hrel.2.2.2.1, hrel.2.2.2.2, hrel.2.2.1⟩

set_option maxRecDepth 10000 in
/-- Claim C7 (counterexample): the dual-points table stores the nonzero
mask 666 (row 7), which has 5 set bits, so the number of flagged edges
averaged by the vertex position calculator is not bounded by 4. -/
theorem C7_counterexample :
    (666 : Nat) ∈ dualPointsList.getD 7 [] ∧ (666 : Nat) ≠ 0 ∧
    popcount12 666 = 5 ∧
    ¬ (∀ r ∈ dualPointsList, ∀ m ∈ r, m ≠ 0 → popcount12 m ≤ 4) := by
  decide

set_option maxRecDepth 10000 in
/-- Claim C7 (amended): every nonzero mask stored in the dual-points
table flags at least 1 and at most 7 edges. -/
theorem C7_mask_popcount :
    ∀ r ∈ dualPointsList, ∀ m ∈ r, m ≠ 0 →
      1 ≤ popcount12 m ∧ popcount12 m ≤ 7 := by
  decide

theorem C7_mask_popcount_witness :
    [265, 0, 0, 0] ∈ dualPointsList ∧
    (265 : Nat) ∈ ([265, 0, 0, 0] : List Nat) ∧
    (1 ≤ popcount12 265 ∧ popcount12 265 ≤ 7) :=
  ⟨by decide, by decide,
   C7_mask_popcount [265, 0, 0, 0] (by decide) 265 (by decide) (by decide)⟩

set_option maxRecDepth 10000 in
/-- Claim C8 (counterexample): on the volume `TV8` the sweep emits a face
for the cell (0,1,1), whose x-coordinate is 0, so faces are not limited
to cells with every coordinate component at least 1. -/
theorem C8_counterexample :
    sweepEmissions TV8 dimsTV8 1 = [⟨0, (0, 1, 1), true, false⟩] ∧
    ¬ (∀ e ∈ sweepEmissions TV8 dimsTV8 1,
        (1 ≤ e.cell.1 ∧ e.cell.1 ≤ dimsTV8.x - 2) ∧
        (1 ≤ e.cell.2.1 ∧ e.cell.2.1 ≤ dimsTV8.y - 2) ∧
        (1 ≤ e.cell.2.2 ∧ e.cell.2.2 ≤ dimsTV8.z - 2)) := by
  decide

/-- Claim C8 (amended): every face emission comes from a swept cell with
all components between 0 and dims-2, whose two components transverse to
the crossing axis are at least 1; and the scanned range per axis
contains dims-2 cell coordinates (for dims at least 2). -/
theorem C8_sweep_bounds (vol : Volume) (dims : Int3) (iso : ℚ) :
    (∀ e ∈ sweepEmissions vol dims iso,
      (0 ≤ e.cell.1 ∧ e.cell.1 ≤ dims.x - 2) ∧
      (0 ≤ e.cell.2.1 ∧ e.cell.2.1 ≤ dims.y - 2) ∧
      (0 ≤ e.cell.2.2 ∧ e.cell.2.2 ≤ dims.z - 2) ∧
      1 ≤ (if e.axis = 0 then e.cell.2.1 else e.cell.1) ∧
      1 ≤ (if e.axis = 2 then e.cell.2.1 else e.cell.2.2)) ∧
    (∀ d : ℤ, 2 ≤ d → ((scannedRange d).length : ℤ) = d - 2) := by
  constructor
  · intro e he
    rw [sweepEmissions] at he
    obtain ⟨c, hc, hce⟩ := List.mem_flatMap.mp he
    obtain ⟨⟨hx0, hx1⟩, ⟨hy0, hy1⟩, ⟨hz0, hz1⟩⟩ := mem_cellList hc
    obtain ⟨hcell, hax⟩ := mem_cellEmissions hce
    rw [hcell]
    refine ⟨⟨hx0, by omega⟩, ⟨hy0, by omega⟩, ⟨hz0, by omega⟩, ?_, ?_⟩
    · rcases hax with ⟨ha, h1, h2⟩ | ⟨ha, h1, h2⟩ | ⟨ha, h1, h2⟩ <;>
        simp [ha] <;> omega
    · rcases hax with ⟨ha, h1, h2⟩ | ⟨ha, h1, h2⟩ | ⟨ha, h1, h2⟩ <;>
        simp [ha] <;> omega
  · intro d hd
    simp only [scannedRange, List.length_map, List.length_range]
    exact Int.toNat_of_nonneg (by omega)

set_option maxRecDepth 10000 in
theorem C8_sweep_bounds_witness :
    (⟨0, (0, 1, 1), true, false⟩ : Emission) ∈ sweepEmissions TV8 dimsTV8 1 ∧
    ((0 : ℤ) ≤ 0 ∧ (0 : ℤ) ≤ dimsTV8.x - 2) ∧
    ((0 : ℤ) ≤ 1 ∧ (1 : ℤ) ≤ dimsTV8.y - 2) ∧
    ((0 : ℤ) ≤ 1 ∧ (1 : ℤ) ≤ dimsTV8.z - 2) ∧
    ((scannedRange 4).length : ℤ) = 4 - 2 := by
  have h := (C8_sweep_bounds TV8 dimsTV8 1).1 ⟨0, (0, 1, 1), true, false⟩
    (by decide)
  have h2 := (C8_sweep_bounds TV8 dimsTV8 1).2 4 (by norm_num)
  exact ⟨by decide, h.1, h.2.1, h.2.2.1, h2⟩

/-- Claim C9: the edge classification is never simultaneously entering
and exiting, for any volume, cell and axis offset. -/
theorem C9_status_exclusive (vol : Volume) (dims : Int3) (iso : ℚ)
    (x y z a b c : ℤ) :
    ((GetStatus vol dims iso x y z a b c).1 &&
      (GetStatus vol dims iso x y z a b c).2) = false := by
  by_cases h : iso ≤ vol (gA dims x y z)
  · simp [GetStatus, not_lt.mpr h]
  · simp [GetStatus, h]

/-- Claim C10: every index value in the returned mesh is strictly less
than the number of returned vertices, for every input, manifold flag and
topology. -/
theorem C10_indices_bounded (vol : Volume) (dims : Int3) (iso : ℚ)
    (gm : Bool) (t : Topology) :
    ∀ i ∈ (Build vol dims iso gm t).indices,
      i < (Build vol dims iso gm t).vertices.length :=
  fun i hi => (buildInternal_inv vol dims iso gm t).1 i hi

set_option maxRecDepth 10000 in
theorem C10_indices_bounded_witness :
    (0 : Nat) ∈ (Build TV1 dimsTV1 1 false Topology.Quads).indices ∧
    0 < (Build TV1 dimsTV1 1 false Topology.Quads).vertices.length :=
  ⟨by decide,
   C10_indices_bounded TV1 dimsTV1 1 false Topology.Quads 0 (by decide)⟩

end DualMC
